import Mathlib

/-!
Shallow embedding of the notes-api service (FastAPI + SQLAlchemy) and proofs of
its specified properties.

The database is modelled as an in-memory state (`DB`) holding the `users` and
`notes` tables in insertion order, together with the autoincrement counters for
the two primary keys.  Wall-clock readings (`datetime.now(timezone.utc)`) are
modelled as an abstract `Nat` instant passed to each operation that reads the
clock.  Machine integers of the source are `Nat` (ids, timestamps, pagination
parameters are non-negative in every reachable state).

`app/core/security.py` is not part of the source tree (only its callers are);
the credential store and token service it implements are modelled from the
spec, as marked on each such definition.
-/

namespace NotesApi

/-- Modelled from the spec: the digest produced by the credential store
(app/core/security.py, absent from the tree).  The stored bcrypt string is
opaque: per the spec it is a one-way, uniquely salted representation of the
plaintext, observable only through `verify_password`.  It is modelled as the
salt paired with an injective image of the plaintext (one-wayness itself is
not expressible; only verification behaviour matters). -/
structure Digest where
  salt : Nat
  check : String
deriving Repr, DecidableEq

/-- Row of the `users` table (app/models/user.py).  `hashed_password` stores the
digest produced by the credential store; `created_at` is the abstract clock
instant at creation. -/
structure User where
  id : Nat
  username : String
  hashed_password : Digest
  created_at : Nat
deriving Repr, DecidableEq

/-- Row of the `notes` table (app/models/note.py).  The `title` column is
declared `nullable=False` in the schema, but the ORM attribute itself can be
assigned `None` by `setattr`, so the attribute is modelled as `Option String`
(creation always stores `some`).  `body` is nullable.  `updated_at` has
`onupdate=utc_now`, applied whenever an UPDATE statement for the row is
emitted. -/
structure Note where
  id : Nat
  title : Option String
  body : Option String
  user_id : Nat
  created_at : Nat
  updated_at : Nat
deriving Repr, DecidableEq

/-- Whether the `title` column of `notes` admits NULL (app/models/note.py line
34: `nullable=False`). -/
def Note.titleNullable : Bool := false

/-- Whether the `body` column of `notes` admits NULL (app/models/note.py line
35: `nullable=True`). -/
def Note.bodyNullable : Bool := true

/-- The database state: both tables in insertion order plus the autoincrement
counters backing the integer primary keys. -/
structure DB where
  users : List User
  notes : List Note
  next_user_id : Nat
  next_note_id : Nat
deriving Repr, DecidableEq

/-- Schema for user registration (app/schemas/auth.py `UserCreate`).  The
pydantic field constraints (username 3 to 50 chars, password 6 to 72 chars) are
enforced by the validation collaborator at the edge and recorded in
`UserCreate.validShape`. -/
structure UserCreate where
  username : String
  password : String
deriving Repr, DecidableEq

/-- The pydantic field constraints of `UserCreate`. -/
def UserCreate.validShape (u : UserCreate) : Prop :=
  3 ≤ u.username.length ∧ u.username.length ≤ 50 ∧
  6 ≤ u.password.length ∧ u.password.length ≤ 72

/-- Schema for login (app/schemas/auth.py `UserLogin`). -/
structure UserLogin where
  username : String
  password : String
deriving Repr, DecidableEq

/-- Public user shape returned by registration (app/schemas/auth.py
`UserRead`): exactly the fields id, username, created_at, in particular no
password and no hash. -/
structure UserRead where
  id : Nat
  username : String
  created_at : Nat
deriving Repr, DecidableEq

/-- Projection of a `users` row to the public shape, as performed by FastAPI
serialising the handler result through `response_model=UserRead`. -/
def UserRead.ofUser (u : User) : UserRead :=
  { id := u.id, username := u.username, created_at := u.created_at }

/-- Schema for note creation (app/schemas/note.py `NoteCreate`): `title`
required, `body` optional with default null. -/
structure NoteCreate where
  title : String
  body : Option String := none
deriving Repr, DecidableEq

/-- Schema for note update (app/schemas/note.py `NoteUpdate`).  Pydantic
distinguishes a field absent from the JSON body from one explicitly set to
null: the outer `Option` is presence in the payload (`none` = unset), the
inner one is the value (`some none` = explicitly null).
`model_dump(exclude_unset=True)` keeps exactly the fields whose outer layer is
`some`, including explicit nulls. -/
structure NoteUpdate where
  title : Option (Option String) := none
  body : Option (Option String) := none
deriving Repr, DecidableEq

namespace Crud

/-- app/crud/user.py `get_user_by_username`: first row whose `username` column
equals the argument exactly (SQL `=` on the column, case-sensitive). -/
def get_user_by_username (db : DB) (username : String) : Option User :=
  db.users.find? (fun u => u.username == username)

/-- Modelled from the spec: `get_password_hash` (app/core/security.py, absent
from the tree) produces the salted one-way digest of the plaintext. -/
def get_password_hash (salt : Nat) (plaintext : String) : Digest :=
  { salt := salt, check := plaintext }

/-- Modelled from the spec: `verify_password` (app/core/security.py, absent
from the tree) checks the plaintext against the digest; true exactly when the
digest was produced from this plaintext, false on any mismatch. -/
def verify_password (plaintext : String) (digest : Digest) : Bool :=
  digest.check == plaintext

/-- app/crud/user.py `create_user`: hash the password, insert the new row with
the next autoincrement id and server-set creation timestamp.  `salt` is the
fresh salt drawn by the credential store, `now` the clock reading. -/
def create_user (db : DB) (now salt : Nat) (user_in : UserCreate) : User × DB :=
  let db_user : User :=
    { id := db.next_user_id
      username := user_in.username
      hashed_password := get_password_hash salt user_in.password
      created_at := now }
  (db_user,
    { db with
        users := db.users ++ [db_user]
        next_user_id := db.next_user_id + 1 })

/-- app/crud/user.py `authenticate_user`: look up by username; `none` if
absent; verify the password against the stored hash; `none` on mismatch;
otherwise the user. -/
def authenticate_user (db : DB) (username password : String) : Option User :=
  match get_user_by_username db username with
  | none => none
  | some user =>
      if verify_password password user.hashed_password then some user else none

/-- app/crud/note.py `get_note`: first row matching both the note id and the
owner id — a note of another owner is as invisible as a missing one. -/
def get_note (db : DB) (note_id user_id : Nat) : Option Note :=
  db.notes.find? (fun n => n.id == note_id && n.user_id == user_id)

/-- app/crud/note.py `get_notes`: all rows of the owner, in storage order, with
OFFSET `skip` and LIMIT `limit` (handler defaults: skip 0, limit 100). -/
def get_notes (db : DB) (user_id : Nat) (skip : Nat := 0) (limit : Nat := 100) :
    List Note :=
  (((db.notes.filter (fun n => n.user_id == user_id)).drop skip).take limit)

/-- app/crud/note.py `create_note`: insert a row with the next autoincrement
id, the supplied title and body, the given owner, and both timestamps set to
the clock reading (`default=utc_now` on both columns). -/
def create_note (db : DB) (now : Nat) (note_in : NoteCreate) (user_id : Nat) :
    Note × DB :=
  let db_note : Note :=
    { id := db.next_note_id
      title := some note_in.title
      body := note_in.body
      user_id := user_id
      created_at := now
      updated_at := now }
  (db_note,
    { db with
        notes := db.notes ++ [db_note]
        next_note_id := db.next_note_id + 1 })

/-- The `setattr` loop of app/crud/note.py `update_note`: assign each field
present in `model_dump(exclude_unset=True)` — explicit nulls included — onto
the ORM object; unset fields are untouched.  (`NoteUpdate` only declares
`title` and `body`, so no other attribute can be assigned.) -/
def applyUpdate (note : Note) (note_in : NoteUpdate) : Note :=
  let n := match note_in.title with
    | none => note
    | some v => { note with title := v }
  match note_in.body with
  | none => n
  | some v => { n with body := v }

/-- Whether the update's flush emits an UPDATE statement: SQLAlchemy computes
attribute history by value comparison at flush time, so a row is written (and
`onupdate=utc_now` fires) exactly when some field present in the payload
differs from the stored value.  An empty payload performs no `setattr` at all
and commits nothing. -/
def updateChangesRow (note : Note) (note_in : NoteUpdate) : Bool :=
  (match note_in.title with
    | none => false
    | some v => v != note.title) ||
  (match note_in.body with
    | none => false
    | some v => v != note.body)

/-- app/crud/note.py `update_note`: apply the present fields, commit, refresh.
When the flush emits an UPDATE, `onupdate` refreshes `updated_at` to the clock
reading and the stored row becomes the modified one; otherwise the row (and
the refreshed object) is unchanged. -/
def update_note (db : DB) (now : Nat) (note : Note) (note_in : NoteUpdate) :
    Note × DB :=
  if updateChangesRow note note_in then
    let n := { applyUpdate note note_in with updated_at := now }
    (n, { db with notes := db.notes.map (fun m => if m.id == note.id then n else m) })
  else
    (note, db)

/-- app/crud/note.py `delete_note`: remove the row (keyed by its primary key)
permanently. -/
def delete_note (db : DB) (note : Note) : DB :=
  { db with notes := db.notes.filter (fun m => m.id != note.id) }

end Crud

/-- Application settings with their defaults (app/core/config.py). -/
structure Settings where
  SECRET_KEY : String :=
    "09d25e094faa6ca2556c818166b7a9563b93f7099f6f0f4caa6cf63b88e8d3e7"
  ALGORITHM : String := "HS256"
  ACCESS_TOKEN_EXPIRE_MINUTES : Nat := 30
  API_V1_PREFIX : String := "/api/v1"
  PROJECT_NAME : String := "Notes API"

/-- The global settings instance (environment overrides not modelled). -/
def settings : Settings := {}

/-- Modelled from the spec: the signed token of the token service
(app/core/security.py, absent from the tree).  A token encodes the subject and
an absolute expiry, plus the signature over both; the signature is modelled as
an injective encoding of secret, subject and expiry. -/
structure Jwt where
  sub : String
  exp : Nat
  sig : String
deriving Repr, DecidableEq

/-- Modelled from the spec: the fixed-algorithm signature over the token
payload with the process-wide secret. -/
def sign (secret : String) (sub : String) (exp : Nat) : String :=
  secret ++ "." ++ sub ++ "." ++ toString exp

/-- Modelled from the spec: `create_access_token` (app/core/security.py,
absent from the tree) — encode the subject (the caller passes
`data={"sub": user.username}`) with expiry `now` plus the delta, signed with
the secret. -/
def create_access_token (secret : String) (sub : String) (now expire_minutes : Nat) :
    Jwt :=
  let exp := now + expire_minutes * 60
  { sub := sub, exp := exp, sig := sign secret sub exp }

/-- Modelled from the spec: token verification — fails when the signature does
not verify or the encoded expiry is not in the future; otherwise yields the
encoded subject. -/
def verify_token (secret : String) (now : Nat) (t : Jwt) : Option String :=
  if t.sig = sign secret t.sub t.exp ∧ now < t.exp then some t.sub else none

/-- The bearer credential attached to a request: absent, present but not
decodable as a token, or a decoded token (possibly expired or wrongly
signed). -/
inductive Credential where
  | missing
  | malformed
  | token (t : Jwt)
deriving Repr, DecidableEq

/-- A repository / storage operation, as logged by the instrumented routes:
used to state that a rejected request performs none. -/
inductive RepoOp where
  | userLookup (username : String)
  | noteCreate (user_id : Nat)
  | noteList (user_id skip limit : Nat)
  | noteGet (note_id user_id : Nat)
  | noteUpdate (note_id : Nat)
  | noteDelete (note_id : Nat)
deriving Repr, DecidableEq

/-- Modelled from the spec: `get_current_user` (app/core/security.py, absent
from the tree) — reject a missing, malformed, expired or wrongly signed token
with no storage access; for a verified token, resolve the encoded subject to a
User row.  Returns the resolved user (none means the request is rejected with
401) together with the storage operations performed. -/
def get_current_user (db : DB) (secret : String) (now : Nat) (cred : Credential) :
    Option User × List RepoOp :=
  match cred with
  | .missing => (none, [])
  | .malformed => (none, [])
  | .token t =>
      match verify_token secret now t with
      | none => (none, [])
      | some sub => (Crud.get_user_by_username db sub, [.userLookup sub])

/-- Result of a handler: a success status with a typed body, or an
HTTPException with status, detail, and extra response headers. -/
inductive ApiResult (α : Type) where
  | ok (status : Nat) (body : α)
  | httpError (status : Nat) (detail : String) (headers : List (String × String))
deriving Repr, DecidableEq

/-- The HTTP status of a handler result. -/
def ApiResult.status : ApiResult α → Nat
  | .ok s _ => s
  | .httpError s _ _ => s

namespace Api

/-- app/api/v1/auth.py `register`: 400 if the username already exists, else
create the user and return 201 with the public shape. -/
def register (db : DB) (now salt : Nat) (user_in : UserCreate) :
    ApiResult UserRead × DB :=
  match Crud.get_user_by_username db user_in.username with
  | some _ =>
      (.httpError 400 "Username already registered" [], db)
  | none =>
      let (user, db') := Crud.create_user db now salt user_in
      (.ok 201 (UserRead.ofUser user), db')

/-- The token response schema (app/schemas/auth.py `Token`). -/
structure Token where
  access_token : Jwt
  token_type : String
deriving Repr, DecidableEq

/-- app/api/v1/auth.py `login`: authenticate; on failure 401 with the generic
detail and a WWW-Authenticate header; on success issue a token for the
username with the configured TTL. -/
def login (db : DB) (secret : String) (now : Nat) (user_login : UserLogin) :
    ApiResult Token :=
  match Crud.authenticate_user db user_login.username user_login.password with
  | none =>
      .httpError 401 "Incorrect username or password"
        [("WWW-Authenticate", "Bearer")]
  | some user =>
      .ok 200
        { access_token :=
            create_access_token secret user.username now
              settings.ACCESS_TOKEN_EXPIRE_MINUTES
          token_type := "bearer" }

/-- The 404 error of the note handlers, shared verbatim by get, update and
delete (app/api/v1/notes.py): it does not depend on whether the id is absent
or owned by someone else. -/
def noteNotFound (note_id : Nat) : ApiResult Note :=
  .httpError 404 (s!"Note with id {note_id} not found") []

/-- Handler body of POST /notes/ (app/api/v1/notes.py `create_note`), after
dependency resolution produced the current user. -/
def create_note (db : DB) (now : Nat) (note_in : NoteCreate) (user_id : Nat) :
    ApiResult Note × DB :=
  let (n, db') := Crud.create_note db now note_in user_id
  (.ok 201 n, db')

/-- Handler body of GET /notes/ (app/api/v1/notes.py `read_notes`). -/
def read_notes (db : DB) (user_id : Nat) (skip : Nat := 0) (limit : Nat := 100) :
    ApiResult (List Note) :=
  .ok 200 (Crud.get_notes db user_id skip limit)

/-- Handler body of GET /notes/{note_id} (app/api/v1/notes.py `read_note`). -/
def read_note (db : DB) (note_id user_id : Nat) : ApiResult Note :=
  match Crud.get_note db note_id user_id with
  | none => noteNotFound note_id
  | some n => .ok 200 n

/-- Handler body of PUT /notes/{note_id} (app/api/v1/notes.py
`update_note`). -/
def update_note (db : DB) (now : Nat) (note_id : Nat) (note_in : NoteUpdate)
    (user_id : Nat) : ApiResult Note × DB :=
  match Crud.get_note db note_id user_id with
  | none => (noteNotFound note_id, db)
  | some note =>
      let (n, db') := Crud.update_note db now note note_in
      (.ok 200 n, db')

/-- Handler body of DELETE /notes/{note_id} (app/api/v1/notes.py
`delete_note`); 204 carries an empty body. -/
def delete_note (db : DB) (note_id user_id : Nat) : ApiResult Unit × DB :=
  match Crud.get_note db note_id user_id with
  | none => (.httpError 404 (s!"Note with id {note_id} not found") [], db)
  | some note => (.ok 204 (), Crud.delete_note db note)

end Api

/-- Modelled from the spec: the 401 raised by the security dependency for a
missing or invalid bearer token, before the handler body runs. -/
def unauthenticated (α : Type) : ApiResult α :=
  .httpError 401 "Not authenticated" [("WWW-Authenticate", "Bearer")]

/-- Modelled from the spec: the 422 produced by the request-shape-validation
collaborator when the parsed JSON body does not fit the declared schema. -/
def invalidPayload (α : Type) : ApiResult α :=
  .httpError 422 "Unprocessable Entity" []

namespace Route

/-- POST /notes/ as dispatched: the security dependency resolves the bearer
credential first (401 terminal on failure), then the validated payload
(`none` = a body the schema rejects) reaches the handler.  The returned trace
lists every repository / storage operation performed. -/
def create_note (db : DB) (secret : String) (now : Nat) (cred : Credential)
    (payload : Option NoteCreate) : ApiResult Note × DB × List RepoOp :=
  match get_current_user db secret now cred with
  | (none, tr) => (unauthenticated Note, db, tr)
  | (some user, tr) =>
      match payload with
      | none => (invalidPayload Note, db, tr)
      | some note_in =>
          let (r, db') := Api.create_note db now note_in user.id
          (r, db', tr ++ [.noteCreate user.id])

/-- GET /notes/ as dispatched. -/
def read_notes (db : DB) (secret : String) (now : Nat) (cred : Credential)
    (skip limit : Nat) : ApiResult (List Note) × DB × List RepoOp :=
  match get_current_user db secret now cred with
  | (none, tr) => (unauthenticated (List Note), db, tr)
  | (some user, tr) =>
      (Api.read_notes db user.id skip limit, db, tr ++ [.noteList user.id skip limit])

/-- GET /notes/{note_id} as dispatched. -/
def read_note (db : DB) (secret : String) (now : Nat) (cred : Credential)
    (note_id : Nat) : ApiResult Note × DB × List RepoOp :=
  match get_current_user db secret now cred with
  | (none, tr) => (unauthenticated Note, db, tr)
  | (some user, tr) =>
      (Api.read_note db note_id user.id, db, tr ++ [.noteGet note_id user.id])

/-- PUT /notes/{note_id} as dispatched. -/
def update_note (db : DB) (secret : String) (now : Nat) (cred : Credential)
    (note_id : Nat) (payload : Option NoteUpdate) :
    ApiResult Note × DB × List RepoOp :=
  match get_current_user db secret now cred with
  | (none, tr) => (unauthenticated Note, db, tr)
  | (some user, tr) =>
      match payload with
      | none => (invalidPayload Note, db, tr)
      | some note_in =>
          let (r, db') := Api.update_note db now note_id note_in user.id
          (r, db', tr ++ [.noteGet note_id user.id, .noteUpdate note_id])

/-- DELETE /notes/{note_id} as dispatched. -/
def delete_note (db : DB) (secret : String) (now : Nat) (cred : Credential)
    (note_id : Nat) : ApiResult Unit × DB × List RepoOp :=
  match get_current_user db secret now cred with
  | (none, tr) => (unauthenticated Unit, db, tr)
  | (some user, tr) =>
      let (r, db') := Api.delete_note db note_id user.id
      (r, db', tr ++ [.noteGet note_id user.id, .noteDelete note_id])

end Route

/-! Shared sample values used by the concrete witnesses. -/

/-- A sample stored note. -/
def sampleNote : Note :=
  { id := 1, title := some "Shopping", body := some "milk"
    user_id := 1, created_at := 0, updated_at := 0 }

/-- A sample user owning `sampleNote`, registered with password "secret1". -/
def sampleUser : User :=
  { id := 1, username := "alice"
    hashed_password := Crud.get_password_hash 7 "secret1", created_at := 0 }

/-- A sample database holding `sampleUser` and `sampleNote`. -/
def sampleDB : DB :=
  { users := [sampleUser], notes := [sampleNote]
    next_user_id := 2, next_note_id := 2 }

/-- The bearer credential is absent or invalid in exactly the senses of the
spec: missing, malformed, wrongly signed, or expired. -/
def credInvalid (secret : String) (now : Nat) : Credential → Prop
  | .missing => True
  | .malformed => True
  | .token t => t.sig ≠ sign secret t.sub t.exp ∨ t.exp ≤ now

/-- An absent or invalid credential is rejected by the security dependency
with no storage access. -/
theorem get_current_user_invalid (db : DB) (secret : String) (now : Nat)
    (cred : Credential) (h : credInvalid secret now cred) :
    get_current_user db secret now cred = (none, []) := by
  cases cred with
  | missing => rfl
  | malformed => rfl
  | token t =>
    have hv : verify_token secret now t = none := by
      rw [verify_token, if_neg]
      rintro ⟨hsig, hexp⟩
      rcases h with h | h
      · exact h hsig
      · omega
    simp [get_current_user, hv]

/-- C2: every request to a /notes/* endpoint whose bearer token is absent or
invalid (missing, malformed, expired, or wrongly signed) gets a 401 response,
the database is untouched, and no repository or storage operation is
performed, regardless of the validity of the request payload. -/
theorem notes_routes_unauthenticated (db : DB) (secret : String) (now : Nat)
    (cred : Credential) (hinv : credInvalid secret now cred) :
    (unauthenticated Note).status = 401 ∧
    (unauthenticated (List Note)).status = 401 ∧
    (unauthenticated Unit).status = 401 ∧
    ∀ payloadC payloadU note_id skip limit,
      Route.create_note db secret now cred payloadC = (unauthenticated Note, db, []) ∧
      Route.read_notes db secret now cred skip limit
        = (unauthenticated (List Note), db, []) ∧
      Route.read_note db secret now cred note_id = (unauthenticated Note, db, []) ∧
      Route.update_note db secret now cred note_id payloadU
        = (unauthenticated Note, db, []) ∧
      Route.delete_note db secret now cred note_id = (unauthenticated Unit, db, []) := by
  have hgc := get_current_user_invalid db secret now cred hinv
  refine ⟨rfl, rfl, rfl, fun payloadC payloadU note_id skip limit => ?_⟩
  refine ⟨?_, ?_, ?_, ?_, ?_⟩ <;>
    simp [Route.create_note, Route.read_notes, Route.read_note,
      Route.update_note, Route.delete_note, hgc]

/-- Witness for C2 at a concrete state: a request with no Authorization header
against the sample database. -/
theorem notes_routes_unauthenticated_witness :
    (unauthenticated Note).status = 401 ∧
    (unauthenticated (List Note)).status = 401 ∧
    (unauthenticated Unit).status = 401 ∧
    ∀ payloadC payloadU note_id skip limit,
      Route.create_note sampleDB settings.SECRET_KEY 5 .missing payloadC
        = (unauthenticated Note, sampleDB, []) ∧
      Route.read_notes sampleDB settings.SECRET_KEY 5 .missing skip limit
        = (unauthenticated (List Note), sampleDB, []) ∧
      Route.read_note sampleDB settings.SECRET_KEY 5 .missing note_id
        = (unauthenticated Note, sampleDB, []) ∧
      Route.update_note sampleDB settings.SECRET_KEY 5 .missing note_id payloadU
        = (unauthenticated Note, sampleDB, []) ∧
      Route.delete_note sampleDB settings.SECRET_KEY 5 .missing note_id
        = (unauthenticated Unit, sampleDB, []) :=
  notes_routes_unauthenticated sampleDB settings.SECRET_KEY 5 .missing trivial

/-- C4: partial update applies only the fields present in the payload — for
every note, an update whose payload leaves `body` unset preserves `body`, one
that leaves `title` unset preserves `title`, and `id`, the owner id and the
created timestamp are always left untouched. -/
theorem update_note_frame (db : DB) (now : Nat) (note : Note)
    (note_in : NoteUpdate) :
    (note_in.body = none →
      (Crud.update_note db now note note_in).1.body = note.body) ∧
    (note_in.title = none →
      (Crud.update_note db now note note_in).1.title = note.title) ∧
    (Crud.update_note db now note note_in).1.id = note.id ∧
    (Crud.update_note db now note note_in).1.user_id = note.user_id ∧
    (Crud.update_note db now note note_in).1.created_at = note.created_at := by
  obtain ⟨t, b⟩ := note_in
  cases t <;> cases b <;>
    simp [Crud.update_note, Crud.applyUpdate, Crud.updateChangesRow] <;>
    split <;> simp

/-- Witness for C4: updating only the title of the sample note. -/
theorem update_note_frame_witness :
    (({ title := some (some "Groceries") } : NoteUpdate).body = none →
      (Crud.update_note sampleDB 5 sampleNote
        { title := some (some "Groceries") }).1.body = sampleNote.body) ∧
    (({ title := some (some "Groceries") } : NoteUpdate).title = none →
      (Crud.update_note sampleDB 5 sampleNote
        { title := some (some "Groceries") }).1.title = sampleNote.title) ∧
    (Crud.update_note sampleDB 5 sampleNote
      { title := some (some "Groceries") }).1.id = sampleNote.id ∧
    (Crud.update_note sampleDB 5 sampleNote
      { title := some (some "Groceries") }).1.user_id = sampleNote.user_id ∧
    (Crud.update_note sampleDB 5 sampleNote
      { title := some (some "Groceries") }).1.created_at = sampleNote.created_at :=
  update_note_frame sampleDB 5 sampleNote { title := some (some "Groceries") }

/-- Counterexample to C5 as stated: an update whose payload sets no fields at
all performs no `setattr` and flushes no UPDATE, so `updated_at` is unchanged
even though the clock has advanced — it is not strictly greater. -/
theorem update_note_empty_payload_counterexample :
    ¬ sampleNote.updated_at
        < (Crud.update_note sampleDB 10 sampleNote {}).1.updated_at := by
  decide

/-- C5 (amended): an update whose payload sets at least one field to a value
differing from the stored one refreshes `updated_at` to the clock reading, so
`updated_at` strictly increases whenever the clock has advanced past its
previous value; an update whose payload sets no fields at all leaves
`updated_at` unchanged. -/
theorem update_note_updated_at (db : DB) (now : Nat) (note : Note)
    (note_in : NoteUpdate) :
    (Crud.updateChangesRow note note_in = true → note.updated_at < now →
      note.updated_at < (Crud.update_note db now note note_in).1.updated_at) ∧
    (note_in.title = none → note_in.body = none →
      (Crud.update_note db now note note_in).1.updated_at = note.updated_at) := by
  constructor
  · intro hc hlt
    simp [Crud.update_note, hc]
    exact hlt
  · intro ht hb
    have hc : Crud.updateChangesRow note note_in = false := by
      simp [Crud.updateChangesRow, ht, hb]
    simp [Crud.update_note, hc]

/-- Witness for C5 (amended): updating the sample note's body at a later clock
instant strictly increases `updated_at`; the empty update leaves it alone. -/
theorem update_note_updated_at_witness :
    (Crud.updateChangesRow sampleNote { body := some (some "eggs") } = true →
      sampleNote.updated_at < 10 →
      sampleNote.updated_at
        < (Crud.update_note sampleDB 10 sampleNote
            { body := some (some "eggs") }).1.updated_at) ∧
    (({ body := some (some "eggs") } : NoteUpdate).title = none →
      ({ body := some (some "eggs") } : NoteUpdate).body = none →
      (Crud.update_note sampleDB 10 sampleNote
        { body := some (some "eggs") }).1.updated_at = sampleNote.updated_at) ∧
    Crud.updateChangesRow sampleNote { body := some (some "eggs") } = true ∧
    sampleNote.updated_at < 10 ∧
    sampleNote.updated_at
      < (Crud.update_note sampleDB 10 sampleNote
          { body := some (some "eggs") }).1.updated_at := by
  have h := update_note_updated_at sampleDB 10 sampleNote
    { body := some (some "eggs") }
  exact ⟨h.1, h.2, by decide, by decide, h.1 (by decide) (by decide)⟩

/-- C10: the update schema distinguishes an absent field from an explicit
null — a payload whose `title` (or `body`) is explicitly null keeps that field
in `model_dump(exclude_unset=True)`, and the `setattr` loop assigns null to
the attribute rather than treating it as unset, even though the stored `title`
column is declared non-nullable. -/
theorem update_explicit_null (note : Note) (note_in : NoteUpdate) :
    (note_in.title = some none → (Crud.applyUpdate note note_in).title = none) ∧
    (note_in.body = some none → (Crud.applyUpdate note note_in).body = none) ∧
    Note.titleNullable = false := by
  refine ⟨fun h => ?_, fun h => ?_, rfl⟩
  · obtain ⟨t, b⟩ := note_in
    cases b <;> simp_all [Crud.applyUpdate]
  · obtain ⟨t, b⟩ := note_in
    cases t <;> simp_all [Crud.applyUpdate]

/-- Witness for C10: explicitly nulling both fields of the sample note. -/
theorem update_explicit_null_witness :
    (({ title := some none, body := some none } : NoteUpdate).title = some none →
      (Crud.applyUpdate sampleNote
        { title := some none, body := some none }).title = none) ∧
    (({ title := some none, body := some none } : NoteUpdate).body = some none →
      (Crud.applyUpdate sampleNote
        { title := some none, body := some none }).body = none) ∧
    Note.titleNullable = false :=
  update_explicit_null sampleNote { title := some none, body := some none }

/-- A freshly deleted primary key matches no row any more, for any caller. -/
theorem get_note_after_delete (db : DB) (note : Note) (uid : Nat) :
    Crud.get_note (Crud.delete_note db note) note.id uid = none := by
  rw [Crud.get_note, List.find?_eq_none]
  intro m hm
  rw [Crud.delete_note] at hm
  simp only [List.mem_filter, bne_iff_ne, ne_eq] at hm
  simp only [Bool.and_eq_true, beq_iff_eq, not_and]
  intro hid
  exact absurd hid hm.2

/-- C8: a created note round-trips — reading it back immediately by its id as
its owner yields exactly the created row, whose title and body are the ones
supplied at creation; a body omitted at creation reads back as null.  The
hypothesis states the autoincrement invariant: the next note id is not yet in
the table. -/
theorem create_note_roundtrip (db : DB) (now : Nat) (note_in : NoteCreate)
    (user_id : Nat) (hfresh : ∀ m ∈ db.notes, m.id ≠ db.next_note_id) :
    Crud.get_note (Crud.create_note db now note_in user_id).2
        (Crud.create_note db now note_in user_id).1.id user_id
      = some (Crud.create_note db now note_in user_id).1 ∧
    (Crud.create_note db now note_in user_id).1.title = some note_in.title ∧
    (Crud.create_note db now note_in user_id).1.body = note_in.body ∧
    (note_in.body = none →
      (Crud.create_note db now note_in user_id).1.body = none) := by
  refine ⟨?_, rfl, rfl, fun h => h⟩
  have h1 : db.notes.find?
      (fun n => n.id == db.next_note_id && n.user_id == user_id) = none := by
    rw [List.find?_eq_none]
    intro m hm
    simp only [Bool.and_eq_true, beq_iff_eq, not_and]
    intro hid
    exact absurd hid (hfresh m hm)
  simp [Crud.get_note, Crud.create_note, List.find?_append, h1]

/-- Witness for C8: creating a body-less note in the sample database and
reading it back. -/
theorem create_note_roundtrip_witness :
    Crud.get_note (Crud.create_note sampleDB 3 { title := "Todo" } 1).2
        (Crud.create_note sampleDB 3 { title := "Todo" } 1).1.id 1
      = some (Crud.create_note sampleDB 3 { title := "Todo" } 1).1 ∧
    (Crud.create_note sampleDB 3 { title := "Todo" } 1).1.title = some "Todo" ∧
    (Crud.create_note sampleDB 3 { title := "Todo" } 1).1.body = none ∧
    (({ title := "Todo" } : NoteCreate).body = none →
      (Crud.create_note sampleDB 3 { title := "Todo" } 1).1.body = none) :=
  create_note_roundtrip sampleDB 3 { title := "Todo" } 1 (by decide)

/-- C7: once a delete has succeeded (204), every subsequent get, update or
delete on that same note id — by any caller — returns 404. -/
theorem delete_then_gone (db : DB) (note_id user_id : Nat)
    (h : (Api.delete_note db note_id user_id).1 = .ok 204 ()) :
    ∀ uid2 now2 note_in,
      Api.read_note (Api.delete_note db note_id user_id).2 note_id uid2
        = Api.noteNotFound note_id ∧
      Api.update_note (Api.delete_note db note_id user_id).2 now2 note_id
          note_in uid2
        = (Api.noteNotFound note_id, (Api.delete_note db note_id user_id).2) ∧
      Api.delete_note (Api.delete_note db note_id user_id).2 note_id uid2
        = (.httpError 404 (s!"Note with id {note_id} not found") [],
            (Api.delete_note db note_id user_id).2) := by
  intro uid2 now2 note_in
  cases hget : Crud.get_note db note_id user_id with
  | none => simp [Api.delete_note, hget] at h
  | some note =>
    have hid : note.id = note_id := by
      have := List.find?_some hget
      simp only [Bool.and_eq_true, beq_iff_eq] at this
      exact this.1
    have hdb2 : (Api.delete_note db note_id user_id).2 = Crud.delete_note db note := by
      simp [Api.delete_note, hget]
    have hnone : Crud.get_note (Crud.delete_note db note) note_id uid2 = none := by
      rw [← hid]
      exact get_note_after_delete db note uid2
    refine ⟨?_, ?_, ?_⟩ <;>
      simp [Api.read_note, Api.update_note, Api.delete_note, hget, hnone]

/-- Witness for C7: deleting the sample note, then probing the same id with a
concrete later get, update and delete. -/
theorem delete_then_gone_witness :
    Api.read_note (Api.delete_note sampleDB 1 1).2 1 1
      = Api.noteNotFound 1 ∧
    Api.update_note (Api.delete_note sampleDB 1 1).2 7 1
        { title := some (some "Groceries") } 1
      = (Api.noteNotFound 1, (Api.delete_note sampleDB 1 1).2) ∧
    Api.delete_note (Api.delete_note sampleDB 1 1).2 1 1
      = (.httpError 404 (s!"Note with id {1} not found") [],
          (Api.delete_note sampleDB 1 1).2) :=
  delete_then_gone sampleDB 1 1 (by decide) 1 7 { title := some (some "Groceries") }

/-- A note owned by user 1 in the two-tenant sample database. -/
def isoNoteA : Note :=
  { id := 1, title := some "User 1 Note", body := none
    user_id := 1, created_at := 0, updated_at := 0 }

/-- A note owned by user 2 in the two-tenant sample database. -/
def isoNoteB : Note :=
  { id := 2, title := some "User 2 Note", body := none
    user_id := 2, created_at := 0, updated_at := 0 }

/-- A database with two tenants, one note each. -/
def isoDB : DB :=
  { users :=
      [ { id := 1, username := "user1"
          hashed_password := Crud.get_password_hash 3 "password1", created_at := 0 }
      , { id := 2, username := "user2"
          hashed_password := Crud.get_password_hash 4 "password2", created_at := 0 } ]
    notes := [isoNoteA, isoNoteB]
    next_user_id := 3, next_note_id := 3 }

/-- C1: cross-tenant isolation — with distinct users `a` and `b`, no note of
`a` ever appears in `b`'s list (any pagination), and `b`'s get, update and
delete on the id of a note of `a` (ids being unique) return 404, with a
response equal to the one produced when no note with that id exists at all. -/
theorem cross_tenant_isolation (db : DB) (a b : Nat) (hab : a ≠ b) :
    (∀ n ∈ db.notes, n.user_id = a →
      ∀ skip limit, n ∉ Crud.get_notes db b skip limit) ∧
    (∀ note ∈ db.notes, note.user_id = a →
      (∀ m ∈ db.notes, m.id = note.id → m = note) →
      Crud.get_note db note.id b = none ∧
      Api.read_note db note.id b = Api.noteNotFound note.id ∧
      (∀ db2 : DB, (∀ m ∈ db2.notes, m.id ≠ note.id) →
        Api.read_note db note.id b = Api.read_note db2 note.id b) ∧
      (∀ now2 note_in, Api.update_note db now2 note.id note_in b
        = (Api.noteNotFound note.id, db)) ∧
      Api.delete_note db note.id b
        = (.httpError 404 (s!"Note with id {note.id} not found") [], db)) := by
  constructor
  · intro n hn howner skip limit hmem
    rw [Crud.get_notes] at hmem
    have hf : n ∈ db.notes.filter (fun m => m.user_id == b) :=
      List.drop_subset _ _ (List.take_subset _ _ hmem)
    have hb : n.user_id = b := by simpa using (List.mem_filter.mp hf).2
    exact hab (howner ▸ hb)
  · intro note hnote howner huniq
    have hnone : Crud.get_note db note.id b = none := by
      rw [Crud.get_note, List.find?_eq_none]
      intro m hm
      simp only [Bool.and_eq_true, beq_iff_eq, not_and]
      intro hid hown
      exact hab (howner ▸ (huniq m hm hid ▸ hown : note.user_id = b))
    refine ⟨hnone, ?_, ?_, ?_, ?_⟩
    · simp [Api.read_note, hnone]
    · intro db2 hdb2
      have hnone2 : Crud.get_note db2 note.id b = none := by
        rw [Crud.get_note, List.find?_eq_none]
        intro m hm
        simp only [Bool.and_eq_true, beq_iff_eq, not_and]
        intro hid
        exact absurd hid (hdb2 m hm)
      simp [Api.read_note, hnone, hnone2]
    · intro now2 note_in
      simp [Api.update_note, hnone]
    · simp [Api.delete_note, hnone]

/-- Witness for C1: user 2 probing user 1's note in the two-tenant sample
database. -/
theorem cross_tenant_isolation_witness :
    (∀ n ∈ isoDB.notes, n.user_id = 1 →
      ∀ skip limit, n ∉ Crud.get_notes isoDB 2 skip limit) ∧
    (∀ note ∈ isoDB.notes, note.user_id = 1 →
      (∀ m ∈ isoDB.notes, m.id = note.id → m = note) →
      Crud.get_note isoDB note.id 2 = none ∧
      Api.read_note isoDB note.id 2 = Api.noteNotFound note.id ∧
      (∀ db2 : DB, (∀ m ∈ db2.notes, m.id ≠ note.id) →
        Api.read_note isoDB note.id 2 = Api.read_note db2 note.id 2) ∧
      (∀ now2 note_in, Api.update_note isoDB now2 note.id note_in 2
        = (Api.noteNotFound note.id, isoDB)) ∧
      Api.delete_note isoDB note.id 2
        = (.httpError 404 (s!"Note with id {note.id} not found") [], isoDB)) :=
  cross_tenant_isolation isoDB 1 2 (by decide)

/-- Looking up a username right after inserting it finds the new row, provided
it was absent before. -/
theorem get_user_by_username_after_create (db : DB) (now salt : Nat)
    (user_in : UserCreate)
    (hfresh : Crud.get_user_by_username db user_in.username = none) :
    Crud.get_user_by_username (Crud.create_user db now salt user_in).2
        user_in.username
      = some (Crud.create_user db now salt user_in).1 := by
  rw [Crud.get_user_by_username] at hfresh ⊢
  simp [Crud.create_user, List.find?_append, hfresh]

/-- A username distinct from the inserted one is still absent after the
insertion, provided it was absent before. -/
theorem get_user_by_username_after_create_other (db : DB) (now salt : Nat)
    (user_in : UserCreate) (u2 : String) (hne : u2 ≠ user_in.username)
    (hfresh : Crud.get_user_by_username db u2 = none) :
    Crud.get_user_by_username (Crud.create_user db now salt user_in).2 u2
      = none := by
  rw [Crud.get_user_by_username] at hfresh ⊢
  simp [Crud.create_user, List.find?_append, hfresh]
  exact fun h => absurd h.symm hne

/-- C6: registering the same username twice — the first registration succeeds
with 201, the second, which matches the stored username exactly and
case-sensitively, fails with 400, a detail containing "already registered" and
no second user row; a username differing in any character still registers
fine. -/
theorem register_duplicate_username (db : DB) (now1 salt1 now2 salt2 : Nat)
    (u p1 p2 : String)
    (hfresh : Crud.get_user_by_username db u = none) :
    (Api.register db now1 salt1 ⟨u, p1⟩).1
      = .ok 201 { id := db.next_user_id, username := u, created_at := now1 } ∧
    Api.register (Api.register db now1 salt1 ⟨u, p1⟩).2 now2 salt2 ⟨u, p2⟩
      = (.httpError 400 "Username already registered" [],
          (Api.register db now1 salt1 ⟨u, p1⟩).2) ∧
    (∃ s1 s2, "Username already registered" = s1 ++ "already registered" ++ s2) ∧
    (∀ u2 p3 now3 salt3, u2 ≠ u → Crud.get_user_by_username db u2 = none →
      (Api.register (Api.register db now1 salt1 ⟨u, p1⟩).2 now3 salt3
        ⟨u2, p3⟩).1.status = 201) := by
  have hsec := get_user_by_username_after_create db now1 salt1 ⟨u, p1⟩ hfresh
  refine ⟨?_, ?_, ⟨"Username ", "", by decide⟩, ?_⟩
  · simp [Api.register, hfresh, Crud.create_user, UserRead.ofUser]
  · have hdb1 : (Api.register db now1 salt1 ⟨u, p1⟩).2
        = (Crud.create_user db now1 salt1 ⟨u, p1⟩).2 := by
      simp [Api.register, hfresh]
    rw [hdb1]
    simp [Api.register, hsec]
  · intro u2 p3 now3 salt3 hne hfresh2
    have h2 := get_user_by_username_after_create_other db now1 salt1 ⟨u, p1⟩ u2
      hne hfresh2
    have hdb1 : (Api.register db now1 salt1 ⟨u, p1⟩).2
        = (Crud.create_user db now1 salt1 ⟨u, p1⟩).2 := by
      simp [Api.register, hfresh]
    rw [hdb1]
    simp [Api.register, h2, ApiResult.status]

/-- Witness for C6: registering "alice" twice in the empty database, then
"Alice" (a case variant) successfully. -/
theorem register_duplicate_username_witness :
    (Api.register { users := [], notes := [], next_user_id := 1, next_note_id := 1 }
        0 3 ⟨"alice", "password123"⟩).1
      = .ok 201 { id := 1, username := "alice", created_at := 0 } ∧
    Api.register
        (Api.register
          { users := [], notes := [], next_user_id := 1, next_note_id := 1 }
          0 3 ⟨"alice", "password123"⟩).2 1 4 ⟨"alice", "password456"⟩
      = (.httpError 400 "Username already registered" [],
          (Api.register
            { users := [], notes := [], next_user_id := 1, next_note_id := 1 }
            0 3 ⟨"alice", "password123"⟩).2) ∧
    (∃ s1 s2, "Username already registered" = s1 ++ "already registered" ++ s2) ∧
    (∀ u2 p3 now3 salt3, u2 ≠ "alice" →
      Crud.get_user_by_username
        { users := [], notes := [], next_user_id := 1, next_note_id := 1 } u2
        = none →
      (Api.register
        (Api.register
          { users := [], notes := [], next_user_id := 1, next_note_id := 1 }
          0 3 ⟨"alice", "password123"⟩).2 now3 salt3 ⟨u2, p3⟩).1.status = 201) :=
  register_duplicate_username
    { users := [], notes := [], next_user_id := 1, next_note_id := 1 }
    0 3 1 4 "alice" "password123" "password456" (by decide)

/-- C9: the successful registration response is exactly the public user shape
(id, username, created_at — the `UserRead` schema has no other field, in
particular no password and no hash), and two registrations differing only in
the supplied password produce identical responses. -/
theorem register_response_public (db : DB) (now salt : Nat) (u p1 p2 : String)
    (hfresh : Crud.get_user_by_username db u = none) :
    (Api.register db now salt ⟨u, p1⟩).1
      = .ok 201 { id := db.next_user_id, username := u, created_at := now } ∧
    (Api.register db now salt ⟨u, p1⟩).1 = (Api.register db now salt ⟨u, p2⟩).1 := by
  constructor
  · simp [Api.register, hfresh, Crud.create_user, UserRead.ofUser]
  · simp [Api.register, Crud.create_user, UserRead.ofUser]
    cases Crud.get_user_by_username db u <;> simp

/-- Witness for C9: registering "bob" with two different passwords against the
sample database. -/
theorem register_response_public_witness :
    (Api.register sampleDB 4 9 ⟨"bob", "hunter22"⟩).1
      = .ok 201 { id := 2, username := "bob", created_at := 4 } ∧
    (Api.register sampleDB 4 9 ⟨"bob", "hunter22"⟩).1
      = (Api.register sampleDB 4 9 ⟨"bob", "different9"⟩).1 :=
  register_response_public sampleDB 4 9 "bob" "hunter22" "different9" (by decide)

/-- C3: login with correct credentials returns 200 with a bearer token; login
with a wrong password and login with an unknown username both return 401, and
the two failing responses are identical — status, generic detail and headers
reveal nothing about which condition failed. -/
theorem login_generic_401 (db : DB) (secret : String) (now : Nat)
    (u p wrongp unknown anyp : String) (user : User)
    (hu : Crud.get_user_by_username db u = some user)
    (hok : Crud.verify_password p user.hashed_password = true)
    (hbad : Crud.verify_password wrongp user.hashed_password = false)
    (hunk : Crud.get_user_by_username db unknown = none) :
    Api.login db secret now ⟨u, p⟩
      = .ok 200
          { access_token := create_access_token secret user.username now
              settings.ACCESS_TOKEN_EXPIRE_MINUTES
            token_type := "bearer" } ∧
    Api.login db secret now ⟨u, wrongp⟩
      = .httpError 401 "Incorrect username or password"
          [("WWW-Authenticate", "Bearer")] ∧
    Api.login db secret now ⟨unknown, anyp⟩ = Api.login db secret now ⟨u, wrongp⟩ := by
  refine ⟨?_, ?_, ?_⟩ <;>
    simp [Api.login, Crud.authenticate_user, hu, hok, hbad, hunk]

/-- Witness for C3: alice logging in with her password, a wrong password, and
a login for the unknown username "mallory", against the sample database. -/
theorem login_generic_401_witness :
    Api.login sampleDB settings.SECRET_KEY 5 ⟨"alice", "secret1"⟩
      = .ok 200
          { access_token := create_access_token settings.SECRET_KEY
              sampleUser.username 5 settings.ACCESS_TOKEN_EXPIRE_MINUTES
            token_type := "bearer" } ∧
    Api.login sampleDB settings.SECRET_KEY 5 ⟨"alice", "wrongpass"⟩
      = .httpError 401 "Incorrect username or password"
          [("WWW-Authenticate", "Bearer")] ∧
    Api.login sampleDB settings.SECRET_KEY 5 ⟨"mallory", "secret1"⟩
      = Api.login sampleDB settings.SECRET_KEY 5 ⟨"alice", "wrongpass"⟩ :=
  login_generic_401 sampleDB settings.SECRET_KEY 5 "alice" "secret1" "wrongpass"
    "mallory" "secret1" sampleUser (by decide) (by decide) (by decide) (by decide)

end NotesApi
